import Mathlib

/-!
Shallow embedding of `src/app.py`, a single-script Streamlit application that
loads a pickled regression model, renders input widgets for 15 features of an
anime title, builds a single-row DataFrame in a fixed column order and displays
the model's prediction.

Modelling conventions:
* Streamlit rendering calls (`st.success`, `st.error`, ...) are modelled as an
  output list of `UIMsg` values, in the order the script emits them.
* The opaque pickled model is a function from the input row (the list of cell
  values, in column order) to `Except String (List ℚ)`: an exception raised by
  `model.predict` is an `Except.error` carrying the exception message, a normal
  return is the list of predicted values.  Python floats are modelled as
  rationals.
* The filesystem is a `FileOutcome`: what `open` + `pickle.load` does for the
  model path (missing file, deserialization fault with a message, or a model).
* `@st.cache_resource` is modelled as an explicit cache, an association list
  from the argument (the filename) to the cached return value.
* A single Streamlit script run is the pure function `runScript`; a Python
  exception escaping the script uncaught is `Except.error` at the top level.
-/

/-- A cell value of the single-row DataFrame: Python ints and floats. -/
inductive Val where
  | i : Int → Val
  | f : ℚ → Val
deriving DecidableEq, Repr

/-- A rendered Streamlit output, in emission order. -/
inductive UIMsg where
  | success : String → UIMsg
  | error : String → UIMsg
  | warning : String → UIMsg
  | write : String → UIMsg
  | title : String → UIMsg
  | header : String → UIMsg
  | subheader : String → UIMsg
  | markdown : String → UIMsg
  | balloons : UIMsg
deriving DecidableEq, Repr

/-- The opaque model artifact: `model.predict(input_df)` either raises (error
message) or returns a sequence of floats. -/
def Model : Type := List Val → Except String (List ℚ)

/-- Outcome of `open(filename, 'rb')` + `pickle.load(file)` for the model path. -/
inductive FileOutcome where
  | missing : FileOutcome
  | corrupt : String → FileOutcome
  | ok : Model → FileOutcome

/-- Constant `MODEL_FILENAME = 'random_forest_model.pkl'` (app.py line 11). -/
def MODEL_FILENAME : String := "random_forest_model.pkl"

/-- Message of `st.success` on successful load (app.py line 19). -/
def loadSuccessMsg : String := "✅ 模型加载成功！"

/-- Message of `st.error` on `FileNotFoundError` (app.py line 22). -/
def notFoundMsg (filename : String) : String :=
  "❌ 错误: 模型文件 \x27" ++ filename ++ "\x27 未找到。请确保模型文件与app.py在同一目录下。"

/-- Message of `st.error` on any other load exception (app.py line 25). -/
def corruptMsg (e : String) : String := "❌ 加载模型时出错: " ++ e

/-- Function `load_model` (app.py lines 14-26): try to open and unpickle; on success
emit a success notice and return the model; on `FileNotFoundError` emit an
error notice and return `None`; on any other exception emit an error notice
carrying the exception message and return `None`.  The pair is (return value,
rendered messages). -/
def load_model (filename : String) (fs : FileOutcome) : Option Model × List UIMsg :=
  match fs with
  | .ok m => (some m, [.success loadSuccessMsg])
  | .missing => (none, [.error (notFoundMsg filename)])
  | .corrupt e => (none, [.error (corruptMsg e)])

/-- Decorator `@st.cache_resource` on `load_model` (app.py line 13): if the cache holds an
entry for this argument, return it without running the body (and without
re-rendering the body's messages); otherwise run `load_model` and record the
result.  Returns (return value, messages rendered by this call, new cache). -/
def cachedLoadModel (cache : List (String × Option Model)) (filename : String)
    (fs : FileOutcome) : Option Model × List UIMsg × List (String × Option Model) :=
  match cache.lookup filename with
  | some r => (r, [], cache)
  | none =>
    let r := load_model filename fs
    (r.1, r.2, (filename, r.1) :: cache)

/-- List `required_features` (app.py lines 33-35): the column order the model was
fit against. -/
def required_features : List String :=
  ["类型", "是否改编", "开播时间", "是否独家", "产地", "集数", "点赞数（PV）",
   "投币数（PV）", "收藏数（PV）", "分享数（PV）", "Topic 0", "Topic 1",
   "Topic 2", "Topic 3", "Topic 4"]

/-- The current values of the 15 input widgets (one Streamlit rerun sees one
such state). -/
structure WidgetState where
  type_val : Int
  adapted_val : Int
  air_time_val : Int
  exclusive_val : Int
  origin_val : Int
  episodes_val : Int
  likes_val : Int
  coins_val : Int
  collects_val : Int
  shares_val : Int
  topic_0_val : ℚ
  topic_1_val : ℚ
  topic_2_val : ℚ
  topic_3_val : ℚ
  topic_4_val : ℚ

/-- Dict `input_data` (app.py lines 140-156): the dict of collected inputs, as an
association list in Python dict insertion order. -/
def input_data (w : WidgetState) : List (String × Val) :=
  [("类型", .i w.type_val), ("是否改编", .i w.adapted_val), ("开播时间", .i w.air_time_val),
   ("是否独家", .i w.exclusive_val), ("产地", .i w.origin_val), ("集数", .i w.episodes_val),
   ("点赞数（PV）", .i w.likes_val), ("投币数（PV）", .i w.coins_val),
   ("收藏数（PV）", .i w.collects_val), ("分享数（PV）", .i w.shares_val),
   ("Topic 0", .f w.topic_0_val), ("Topic 1", .f w.topic_1_val), ("Topic 2", .f w.topic_2_val),
   ("Topic 3", .f w.topic_3_val), ("Topic 4", .f w.topic_4_val)]

/-- Assignment `input_df = input_df[required_features]` (app.py line 160): pandas column
selection reorders the single row to the requested column order, raising a
`KeyError` (uncaught at that line) if a requested column is absent. -/
def reindexRow (row : List (String × Val)) (cols : List String) : Except String (List Val) :=
  cols.mapM fun c =>
    match row.lookup c with
    | some v => Except.ok v
    | none => Except.error ("KeyError: " ++ c)

/-- The row `input_df[required_features]` actually holds: the 15 widget values
in the §3 schema order. -/
def modelInputRow (w : WidgetState) : List Val :=
  [.i w.type_val, .i w.adapted_val, .i w.air_time_val, .i w.exclusive_val,
   .i w.origin_val, .i w.episodes_val, .i w.likes_val, .i w.coins_val,
   .i w.collects_val, .i w.shares_val, .f w.topic_0_val, .f w.topic_1_val,
   .f w.topic_2_val, .f w.topic_3_val, .f w.topic_4_val]

/-! ### Widget configurations (app.py lines 86-133)

Each widget's configuration, taken from the source, determines the set of
values the control can yield. -/

/-- Options `list(type_options.keys())` (app.py lines 38-44, 88). -/
def type_options_keys : List Int := [1, 2, 3, 4, 5]

/-- Options `list(adapted_options.keys())` (app.py lines 46-49, 94). -/
def adapted_options_keys : List Int := [0, 1]

/-- Options `list(air_time_options.keys())` (app.py lines 51-54, 100). -/
def air_time_options_keys : List Int := [0, 1]

/-- Options `list(exclusive_options.keys())` (app.py lines 56-59, 106). -/
def exclusive_options_keys : List Int := [0, 1]

/-- Options `list(origin_options.keys())` (app.py lines 61-65, 112). -/
def origin_options_keys : List Int := [1, 2, 3]

/-- Widget `st.number_input("集数", min_value=1, max_value=500, value=12)`
(app.py line 120): the control yields exactly the integers in `[1, 500]`. -/
def episodesAccepts (n : Int) : Prop := 1 ≤ n ∧ n ≤ 500

/-- Widgets `st.number_input(..., min_value=0)` with integer default and no maximum
(app.py lines 121-124): the control yields exactly the integers `≥ 0`. -/
def countAccepts (n : Int) : Prop := 0 ≤ n

/-- Widgets `st.slider(..., min_value=0.0, max_value=1.0, step=0.01)` (app.py lines
129-133): the control yields exactly the values `0.0 + k * 0.01` for
`k = 0, ..., 100`. -/
def sliderAccepts (q : ℚ) : Prop := ∃ k : ℕ, k ≤ 100 ∧ q = (k : ℚ) / 100

/-- A widget state the rendered controls can actually produce. -/
def widgetReachable (w : WidgetState) : Prop :=
  w.type_val ∈ type_options_keys ∧ w.adapted_val ∈ adapted_options_keys ∧
  w.air_time_val ∈ air_time_options_keys ∧ w.exclusive_val ∈ exclusive_options_keys ∧
  w.origin_val ∈ origin_options_keys ∧ episodesAccepts w.episodes_val ∧
  countAccepts w.likes_val ∧ countAccepts w.coins_val ∧ countAccepts w.collects_val ∧
  countAccepts w.shares_val ∧ sliderAccepts w.topic_0_val ∧ sliderAccepts w.topic_1_val ∧
  sliderAccepts w.topic_2_val ∧ sliderAccepts w.topic_3_val ∧ sliderAccepts w.topic_4_val

/-! ### The §3 domains, as the spec states them (for refinement claims) -/

/-- Spec §3: `type` is one of 1..5. -/
def specTypeDomain (n : Int) : Prop := n = 1 ∨ n = 2 ∨ n = 3 ∨ n = 4 ∨ n = 5

/-- Spec §3: `origin` is one of 1..3. -/
def specOriginDomain (n : Int) : Prop := n = 1 ∨ n = 2 ∨ n = 3

/-- Spec §3: a binary field is 0 or 1. -/
def specBinaryDomain (n : Int) : Prop := n = 0 ∨ n = 1

/-- Spec §3: `episode_count` lies in `[1, 500]`. -/
def specEpisodeDomain (n : Int) : Prop := 1 ≤ n ∧ n ≤ 500

/-- Spec §3: the interaction counts are nonnegative integers. -/
def specCountDomain (n : Int) : Prop := 0 ≤ n

/-- Spec §3: a topic weight lies in `[0.0, 1.0]`. -/
def specTopicDomain (q : ℚ) : Prop := 0 ≤ q ∧ q ≤ 1

/-! ### Number formatting: Python format spec `,.2f` (app.py line 167)

Python renders `f"{x:,.2f}"` by rounding `x` to two decimal places (ties to
even) and grouping the integer digits in threes with commas.  Floats are
modelled as rationals. -/

/-- The decimal digit character for `n < 10`. -/
def digitChar (n : Nat) : Char := Char.ofNat (48 + n)

/-- Fuel-driven digit expansion, most significant first; `fuel` bounds the
number of digits. -/
def natDigitsAux : Nat → Nat → List Char
  | 0, _ => []
  | fuel + 1, n =>
    if n < 10 then [digitChar n]
    else natDigitsAux fuel (n / 10) ++ [digitChar (n % 10)]

/-- The decimal digits of `n`, most significant first (`n + 1` digits always
suffice). -/
def natDigits (n : Nat) : List Char := natDigitsAux (n + 1) n

/-- Split a list into chunks of three, the leftover chunk last. -/
def chunk3 : List Char → List (List Char)
  | [] => []
  | [a] => [[a]]
  | [a, b] => [[a, b]]
  | a :: b :: c :: rest => [a, b, c] :: chunk3 rest

/-- Group a digit list (most significant first) in threes from the right,
separated by commas. -/
def groupThousands (ds : List Char) : String :=
  String.intercalate "," ((((chunk3 ds.reverse).map List.reverse).reverse).map List.asString)

/-- The two fraction digits, zero padded. -/
def twoDigitStr (n : Nat) : String :=
  if n < 10 then "0" ++ (natDigits n).asString else (natDigits n).asString

/-- Round to the nearest integer, ties to even (the rounding of Python's fixed
point float formatting). -/
def roundHalfEven (q : ℚ) : Int :=
  if q - q.floor < 1 / 2 then q.floor
  else if 1 / 2 < q - q.floor then q.floor + 1
  else if q.floor % 2 = 0 then q.floor else q.floor + 1

/-- Format `f"{x:,.2f}"`: sign, integer digits grouped in threes with commas, a dot,
two fraction digits. -/
def formatComma2f (q : ℚ) : String :=
  let cents : Int := roundHalfEven (q * 100)
  let sign : String := if cents < 0 then "-" else ""
  let a : Nat := cents.natAbs
  sign ++ groupThousands (natDigits (a / 100)) ++ "." ++ twoDigitStr (a % 100)

/-! ### The predict button handler and the script body (app.py lines 68-173) -/

/-- Message of `st.success` on a successful prediction (app.py line 167). -/
def predictSuccessMsg (p : ℚ) : String :=
  "🎉 预测的总播放量为: **" ++ formatComma2f p ++ " 万**"

/-- Note rendered by `st.write` under the prediction (app.py line 168). -/
def predictNoteMsg : String := "（预测结果基于您输入的特征值和随机森林模型计算得出）"

/-- Message of `st.error` when `model.predict` raises (app.py line 171). -/
def predictErrorMsg (e : String) : String := "❌ 预测过程中发生错误: " ++ e

/-- Message of `st.warning` when the inner model check fails (app.py line 173). -/
def notLoadedWarning : String := "模型尚未成功加载，无法进行预测。请检查模型文件。"

/-- The message of the `IndexError` that `prediction[0]` raises (inside the
same `try`) when the artifact returns an empty sequence. -/
def indexErrorMsg : String := "index 0 is out of bounds for axis 0 with size 0"

/-- The `try`/`except` around `model.predict` and the result display (app.py
lines 163-171).  Returns (rendered messages, rows passed to `model.predict`). -/
def predictBlock (m : Model) (df : List Val) : List UIMsg × List (List Val) :=
  match m df with
  | .error e => ([.error (predictErrorMsg e)], [df])
  | .ok preds =>
    match preds with
    | [] => ([.error (predictErrorMsg indexErrorMsg)], [df])
    | p :: _ => ([.balloons, .success (predictSuccessMsg p), .write predictNoteMsg], [df])

/-- The body of `if st.button(...)` (app.py lines 137-173): the inner
`if model is not None` check, the dict and DataFrame construction (the column
selection is outside the `try` and would raise uncaught), then the guarded
prediction.  `Except.error` is an uncaught exception escaping the script. -/
def buttonHandler (modelOpt : Option Model) (w : WidgetState) :
    Except String (List UIMsg × List (List Val)) :=
  if h : modelOpt.isSome then
    match reindexRow (input_data w) required_features with
    | .error e => .error e
    | .ok row => .ok (predictBlock (modelOpt.get h) row)
  else
    .ok ([.warning notLoadedWarning], [])

/-- Static messages of the widget section (app.py lines 78, 84, 118, 127, 136). -/
def widgetMsgs : List UIMsg :=
  [.header "请填写动漫特征", .subheader "基本信息", .subheader "数据指标",
   .subheader "主题权重 (0-1之间)", .markdown "---"]

/-- The outer `if model is not None` block (app.py lines 77-173): the widget
section renders, and if the predict button was clicked, the handler runs. -/
def mainBody (modelOpt : Option Model) (w : WidgetState) (clicked : Bool) :
    Except String (List UIMsg × List (List Val)) :=
  if modelOpt.isSome then
    match (if clicked then buttonHandler modelOpt w else .ok ([], [])) with
    | .error e => .error e
    | .ok p => .ok (widgetMsgs ++ p.1, p.2)
  else .ok ([], [])

/-- Intro text of `st.write` (app.py lines 71-75). -/
def introMsg : String :=
  "欢迎使用动漫总播放量预测应用。请在下方输入动漫的相关特征，我们将使用预训练的随机森林模型为您预测其预计的总播放量（万）。\n\n您的模型文件 `random_forest_model.pkl` 已加载。"

/-- One Streamlit run of `app.py` top to bottom: load the model through the
cache (line 29), render the page heading (lines 69-75), then the model-guarded
body (lines 77-173).  The closing markdown chrome (feature notes and footer,
lines 176-209) renders no model-dependent state and is elided.  The result is
(rendered messages, rows passed to `model.predict`, new cache);
`Except.error` is an uncaught exception escaping the script. -/
def runScript (cache : List (String × Option Model)) (filename : String)
    (fs : FileOutcome) (w : WidgetState) (clicked : Bool) :
    Except String (List UIMsg × List (List Val) × List (String × Option Model)) :=
  let l := cachedLoadModel cache filename fs
  match mainBody l.1 w clicked with
  | .error e => .error e
  | .ok p =>
    .ok (l.2.1 ++ [.title "📊 动漫总播放量预测应用", .write introMsg] ++ p.1, p.2, l.2.2)

/-! ### Shared lemmas -/

theorem reindex_input_data (w : WidgetState) :
    reindexRow (input_data w) required_features = .ok (modelInputRow w) := by
  rfl

theorem predictBlock_calls (m : Model) (df : List Val) : (predictBlock m df).2 = [df] := by
  unfold predictBlock
  cases h : m df with
  | error e => rfl
  | ok preds => cases preds <;> rfl

theorem buttonHandler_some (m : Model) (w : WidgetState) :
    buttonHandler (some m) w = .ok (predictBlock m (modelInputRow w)) := by
  simp [buttonHandler, reindex_input_data]

/-- The (messages, predict calls) the model-guarded body produces, by case. -/
def bodyOut (modelOpt : Option Model) (w : WidgetState) (clicked : Bool) :
    List UIMsg × List (List Val) :=
  match modelOpt, clicked with
  | none, _ => ([], [])
  | some _, false => (widgetMsgs, [])
  | some m, true =>
    (widgetMsgs ++ (predictBlock m (modelInputRow w)).1, (predictBlock m (modelInputRow w)).2)

theorem mainBody_eq (modelOpt : Option Model) (w : WidgetState) (clicked : Bool) :
    mainBody modelOpt w clicked = .ok (bodyOut modelOpt w clicked) := by
  cases modelOpt with
  | none => cases clicked <;> rfl
  | some m => cases clicked <;> simp [mainBody, bodyOut, buttonHandler_some]

/-- The page heading every run renders. -/
def headMsgs : List UIMsg := [.title "📊 动漫总播放量预测应用", .write introMsg]

theorem runScript_eq (cache : List (String × Option Model)) (filename : String)
    (fs : FileOutcome) (w : WidgetState) (clicked : Bool) :
    runScript cache filename fs w clicked =
      .ok ((cachedLoadModel cache filename fs).2.1 ++ headMsgs ++
             (bodyOut (cachedLoadModel cache filename fs).1 w clicked).1,
           (bodyOut (cachedLoadModel cache filename fs).1 w clicked).2,
           (cachedLoadModel cache filename fs).2.2) := by
  unfold runScript
  simp only [mainBody_eq, headMsgs]

theorem cachedLoadModel_no_warning (s : String) (cache : List (String × Option Model))
    (filename : String) (fs : FileOutcome) :
    UIMsg.warning s ∉ (cachedLoadModel cache filename fs).2.1 := by
  unfold cachedLoadModel
  cases h : cache.lookup filename with
  | some r => simp
  | none => cases fs <;> simp [load_model]

theorem predictBlock_no_warning (s : String) (m : Model) (df : List Val) :
    UIMsg.warning s ∉ (predictBlock m df).1 := by
  unfold predictBlock
  cases h : m df with
  | error e => simp
  | ok preds => cases preds <;> simp

theorem sliderAccepts_bounds (q : ℚ) (h : sliderAccepts q) : 0 ≤ q ∧ q ≤ 1 := by
  obtain ⟨k, hk, rfl⟩ := h
  constructor
  · positivity
  · rw [div_le_one (by norm_num)]
    exact_mod_cast hk

theorem sliderAccepts_quant (q : ℚ) (h : sliderAccepts q) :
    (q * 100).den = 1 ∧ 0 ≤ q ∧ q ≤ 1 := by
  refine ⟨?_, sliderAccepts_bounds q h⟩
  obtain ⟨k, hk, rfl⟩ := h
  rw [div_mul_cancel₀ _ (by norm_num : (100 : ℚ) ≠ 0)]
  exact Rat.den_natCast k

/-! ### The claims -/

/-- C1: for every prediction request, the single-row input passed to
`model.predict` has exactly 15 columns, and for every widget state (hence for
any two `FeatureRow`s with identical field values) the serialized row is
exactly the §3 order: type, is_adapted, air_time, is_exclusive, origin,
episode_count, likes, coins, collects, shares, topic_0..topic_4. -/
theorem C1_feature_row_order (w : WidgetState) :
    required_features.length = 15 ∧
    reindexRow (input_data w) required_features =
      .ok [.i w.type_val, .i w.adapted_val, .i w.air_time_val, .i w.exclusive_val,
           .i w.origin_val, .i w.episodes_val, .i w.likes_val, .i w.coins_val,
           .i w.collects_val, .i w.shares_val, .f w.topic_0_val, .f w.topic_1_val,
           .f w.topic_2_val, .f w.topic_3_val, .f w.topic_4_val] :=
  ⟨rfl, reindex_input_data w⟩

/-- C5: the controls accept exactly the §3 domains: episode count exactly the
integers in `[1, 500]` (boundaries included), the four interaction counts
exactly the integers `≥ 0`, each topic slider only values inside `[0, 1]` with
`0.0` and `1.0` both accepted, `type` exactly `{1,...,5}`, `origin` exactly
`{1,2,3}` and the three binary fields exactly `{0,1}`. -/
theorem C5_widget_domains :
    (∀ n : Int, episodesAccepts n ↔ specEpisodeDomain n) ∧
    episodesAccepts 1 ∧ episodesAccepts 500 ∧
    (∀ n : Int, countAccepts n ↔ specCountDomain n) ∧
    (∀ q : ℚ, sliderAccepts q → specTopicDomain q) ∧
    sliderAccepts 0 ∧ sliderAccepts 1 ∧
    (∀ n : Int, n ∈ type_options_keys ↔ specTypeDomain n) ∧
    (∀ n : Int, n ∈ origin_options_keys ↔ specOriginDomain n) ∧
    (∀ n : Int, n ∈ adapted_options_keys ↔ specBinaryDomain n) ∧
    (∀ n : Int, n ∈ air_time_options_keys ↔ specBinaryDomain n) ∧
    (∀ n : Int, n ∈ exclusive_options_keys ↔ specBinaryDomain n) := by
  refine ⟨fun n => Iff.rfl, ⟨by norm_num, by norm_num⟩, ⟨by norm_num, by norm_num⟩,
    fun n => Iff.rfl, fun q h => sliderAccepts_bounds q h,
    ⟨0, by norm_num, by norm_num⟩, ⟨100, by norm_num, by norm_num⟩, ?_, ?_, ?_, ?_, ?_⟩ <;>
    intro n <;>
    simp [type_options_keys, origin_options_keys, adapted_options_keys,
      air_time_options_keys, exclusive_options_keys, specTypeDomain, specOriginDomain,
      specBinaryDomain]

/-- C5 witness: the slider-bound implication at the concrete value `1/2`. -/
theorem C5_widget_domains_witness : (0 : ℚ) ≤ 1 / 2 ∧ (1 : ℚ) / 2 ≤ 1 :=
  C5_widget_domains.2.2.2.2.1 (1 / 2) ⟨50, by norm_num, by norm_num⟩

/-- C7: whenever the cached load yields no model handle (e.g. the artifact
path does not exist), the rendered run performs no `model.predict` call at
all: the predict action is withheld by the caller-side check of the load
state. -/
theorem C7_no_predict_without_model (cache : List (String × Option Model))
    (filename : String) (fs : FileOutcome) (w : WidgetState) (clicked : Bool)
    (h : (cachedLoadModel cache filename fs).1 = none) :
    (∃ msgs cache2, runScript cache filename fs w clicked = .ok (msgs, [], cache2)) ∧
    (∀ fname, (cachedLoadModel [] fname .missing).1 = none) := by
  refine ⟨⟨(cachedLoadModel cache filename fs).2.1 ++ headMsgs ++
    (bodyOut (cachedLoadModel cache filename fs).1 w clicked).1,
    (cachedLoadModel cache filename fs).2.2, ?_⟩, fun fname => ?_⟩
  · rw [runScript_eq, h]
    cases clicked <;> rfl
  · rfl

/-- C7 witness: a run on a missing artifact file with the button clicked makes
no predict call. -/
theorem C7_no_predict_without_model_witness :
    ∃ msgs cache2,
      runScript [] MODEL_FILENAME .missing
        ⟨1, 0, 0, 0, 1, 12, 0, 0, 0, 0, 0, 0, 0, 0, 0⟩ true = .ok (msgs, [], cache2) :=
  (C7_no_predict_without_model [] MODEL_FILENAME .missing
    ⟨1, 0, 0, 0, 1, 12, 0, 0, 0, 0, 0, 0, 0, 0, 0⟩ true rfl).1

/-- C8: loading twice with the same valid path yields two handles that produce
identical predictions on every row (with `@st.cache_resource` the second call
returns the cached handle itself). -/
theorem C8_idempotent_load (filename : String) (m : Model) :
    ∃ m1 m2 : Model,
      (cachedLoadModel [] filename (.ok m)).1 = some m1 ∧
      (cachedLoadModel (cachedLoadModel [] filename (.ok m)).2.2 filename (.ok m)).1 =
        some m2 ∧
      ∀ row : List Val, m1 row = m2 row := by
  refine ⟨m, m, rfl, ?_, fun row => rfl⟩
  simp [cachedLoadModel, load_model, List.lookup]

/-- C9: the "model not yet loaded" warning branch inside the predict button
handler is unreachable: no run ever renders that warning. -/
theorem C9_warning_unreachable (cache : List (String × Option Model))
    (filename : String) (fs : FileOutcome) (w : WidgetState) (clicked : Bool)
    (msgs : List UIMsg) (calls : List (List Val)) (cache2 : List (String × Option Model))
    (h : runScript cache filename fs w clicked = .ok (msgs, calls, cache2)) :
    UIMsg.warning notLoadedWarning ∉ msgs := by
  rw [runScript_eq] at h
  have hmsgs : msgs = (cachedLoadModel cache filename fs).2.1 ++ headMsgs ++
      (bodyOut (cachedLoadModel cache filename fs).1 w clicked).1 :=
    (congrArg (fun p => p.1) (Except.ok.inj h)).symm
  subst hmsgs
  intro hmem
  rcases List.mem_append.mp hmem with hmem | hmem
  · rcases List.mem_append.mp hmem with hmem | hmem
    · exact cachedLoadModel_no_warning _ _ _ _ hmem
    · simp [headMsgs] at hmem
  · cases hmo : (cachedLoadModel cache filename fs).1 with
    | none => rw [hmo] at hmem; simp [bodyOut] at hmem
    | some m =>
      rw [hmo] at hmem
      cases clicked with
      | false => simp [bodyOut, widgetMsgs] at hmem
      | true =>
        simp only [bodyOut] at hmem
        rcases List.mem_append.mp hmem with hmem | hmem
        · simp [widgetMsgs] at hmem
        · exact predictBlock_no_warning _ _ _ hmem

/-- C9 witness: a concrete successful run with the button clicked does not
render the warning. -/
theorem C9_warning_unreachable_witness :
    UIMsg.warning notLoadedWarning ∉
      (headMsgs ++ (bodyOut (some fun _ => .ok [(1 : ℚ)])
        ⟨1, 0, 0, 0, 1, 12, 0, 0, 0, 0, 0, 0, 0, 0, 0⟩ true).1) :=
  C9_warning_unreachable [(MODEL_FILENAME, some fun _ => .ok [(1 : ℚ)])] MODEL_FILENAME
    .missing ⟨1, 0, 0, 0, 1, 12, 0, 0, 0, 0, 0, 0, 0, 0, 0⟩ true _ _ _ (runScript_eq _ _ _ _ _)

/-- C10: a topic value produced by the interface is quantized to multiples of
`0.01`: for a reachable widget state, each topic weight times 100 is an
integer (denominator 1) and the weight lies in `[0, 1]`. -/
theorem C10_topics_quantized (w : WidgetState) (hw : widgetReachable w) :
    ((w.topic_0_val * 100).den = 1 ∧ 0 ≤ w.topic_0_val ∧ w.topic_0_val ≤ 1) ∧
    ((w.topic_1_val * 100).den = 1 ∧ 0 ≤ w.topic_1_val ∧ w.topic_1_val ≤ 1) ∧
    ((w.topic_2_val * 100).den = 1 ∧ 0 ≤ w.topic_2_val ∧ w.topic_2_val ≤ 1) ∧
    ((w.topic_3_val * 100).den = 1 ∧ 0 ≤ w.topic_3_val ∧ w.topic_3_val ≤ 1) ∧
    ((w.topic_4_val * 100).den = 1 ∧ 0 ≤ w.topic_4_val ∧ w.topic_4_val ≤ 1) := by
  obtain ⟨-, -, -, -, -, -, -, -, -, -, h0, h1, h2, h3, h4⟩ := hw
  exact ⟨sliderAccepts_quant _ h0, sliderAccepts_quant _ h1, sliderAccepts_quant _ h2,
    sliderAccepts_quant _ h3, sliderAccepts_quant _ h4⟩

/-- C10 witness: the quantization applied at the reachable state with every
topic weight set to `0.1`. -/
theorem C10_topics_quantized_witness :
    ((((1 : ℚ)/10) * 100).den = 1 ∧ 0 ≤ ((1 : ℚ)/10) ∧ ((1 : ℚ)/10) ≤ 1) ∧
    ((((1 : ℚ)/10) * 100).den = 1 ∧ 0 ≤ ((1 : ℚ)/10) ∧ ((1 : ℚ)/10) ≤ 1) ∧
    ((((1 : ℚ)/10) * 100).den = 1 ∧ 0 ≤ ((1 : ℚ)/10) ∧ ((1 : ℚ)/10) ≤ 1) ∧
    ((((1 : ℚ)/10) * 100).den = 1 ∧ 0 ≤ ((1 : ℚ)/10) ∧ ((1 : ℚ)/10) ≤ 1) ∧
    ((((1 : ℚ)/10) * 100).den = 1 ∧ 0 ≤ ((1 : ℚ)/10) ∧ ((1 : ℚ)/10) ≤ 1) :=
  C10_topics_quantized
    ⟨1, 0, 0, 0, 1, 12, 0, 0, 0, 0, 1/10, 1/10, 1/10, 1/10, 1/10⟩
    ⟨by decide, by decide, by decide, by decide, by decide, ⟨by norm_num, by norm_num⟩,
     le_refl 0, le_refl 0, le_refl 0, le_refl 0,
     ⟨10, by norm_num, by norm_num⟩, ⟨10, by norm_num, by norm_num⟩,
     ⟨10, by norm_num, by norm_num⟩, ⟨10, by norm_num, by norm_num⟩,
     ⟨10, by norm_num, by norm_num⟩⟩

theorem cacheHit_self (m : Model) (fs : FileOutcome) :
    cachedLoadModel [(MODEL_FILENAME, some m)] MODEL_FILENAME fs =
      (some m, [], [(MODEL_FILENAME, some m)]) := by
  simp [cachedLoadModel, List.lookup]

theorem runScript_cached_model (m : Model) (fs : FileOutcome) (w : WidgetState) :
    runScript [(MODEL_FILENAME, some m)] MODEL_FILENAME fs w true =
      .ok (headMsgs ++ widgetMsgs ++ (predictBlock m (modelInputRow w)).1,
           [modelInputRow w], [(MODEL_FILENAME, some m)]) := by
  rw [runScript_eq, cacheHit_self]
  simp [bodyOut, predictBlock_calls, List.append_assoc]

/-- C2: an exception raised by the model artifact during `model.predict` is
caught and rendered as an error message; the run still returns normally, the
cached model handle is unchanged, and a following run with that same cached
handle still reaches `model.predict` (for any widget state). -/
theorem C2_predict_exception_caught (fs : FileOutcome) (m : Model) (w : WidgetState)
    (e : String) (hm : m (modelInputRow w) = .error e) :
    ∃ msgs : List UIMsg,
      runScript [(MODEL_FILENAME, some m)] MODEL_FILENAME fs w true =
        .ok (msgs, [modelInputRow w], [(MODEL_FILENAME, some m)]) ∧
      UIMsg.error (predictErrorMsg e) ∈ msgs ∧
      ∀ w2 : WidgetState, ∃ msgs2 : List UIMsg,
        runScript [(MODEL_FILENAME, some m)] MODEL_FILENAME fs w2 true =
          .ok (msgs2, [modelInputRow w2], [(MODEL_FILENAME, some m)]) := by
  refine ⟨headMsgs ++ widgetMsgs ++ (predictBlock m (modelInputRow w)).1,
    runScript_cached_model m fs w, ?_, fun w2 =>
      ⟨headMsgs ++ widgetMsgs ++ (predictBlock m (modelInputRow w2)).1,
       runScript_cached_model m fs w2⟩⟩
  simp [predictBlock, hm]

/-- C2 witness: a model whose predict always raises, at a concrete widget
state. -/
theorem C2_predict_exception_caught_witness :
    ∃ msgs : List UIMsg,
      runScript [(MODEL_FILENAME, some (fun _ => Except.error "boom"))] MODEL_FILENAME
          .missing ⟨1, 0, 0, 0, 1, 12, 0, 0, 0, 0, 0, 0, 0, 0, 0⟩ true =
        .ok (msgs, [modelInputRow ⟨1, 0, 0, 0, 1, 12, 0, 0, 0, 0, 0, 0, 0, 0, 0⟩],
             [(MODEL_FILENAME, some (fun _ => Except.error "boom"))]) ∧
      UIMsg.error (predictErrorMsg "boom") ∈ msgs ∧
      ∀ w2 : WidgetState, ∃ msgs2 : List UIMsg,
        runScript [(MODEL_FILENAME, some (fun _ => Except.error "boom"))] MODEL_FILENAME
            .missing w2 true =
          .ok (msgs2, [modelInputRow w2],
               [(MODEL_FILENAME, some (fun _ => Except.error "boom"))]) :=
  C2_predict_exception_caught .missing (fun _ => Except.error "boom")
    ⟨1, 0, 0, 0, 1, 12, 0, 0, 0, 0, 0, 0, 0, 0, 0⟩ "boom" rfl

/-- C3: loading from a missing path returns a result (no raised fault) whose
rendered report identifies the file as not found; any other deserialization
fault returns a result whose rendered report carries the underlying error
message; the two reports are distinguishable for every path and message; a
successful load returns the usable handle. -/
theorem C3_load_error_reporting :
    (∀ filename, load_model filename .missing = (none, [.error (notFoundMsg filename)])) ∧
    (∀ filename e, load_model filename (.corrupt e) = (none, [.error (corruptMsg e)]) ∧
      corruptMsg e = "❌ 加载模型时出错: " ++ e) ∧
    (∀ filename e, notFoundMsg filename ≠ corruptMsg e) ∧
    (∀ filename m, load_model filename (.ok m) = (some m, [.success loadSuccessMsg])) := by
  refine ⟨fun _ => rfl, fun _ _ => ⟨rfl, rfl⟩, fun filename e h => ?_, fun _ _ => rfl⟩
  have h3 : (notFoundMsg filename).data.take 3 = (corruptMsg e).data.take 3 := by rw [h]
  have hl : (notFoundMsg filename).data.take 3 = ['❌', ' ', '错'] := rfl
  have hr : (corruptMsg e).data.take 3 = ['❌', ' ', '加'] := rfl
  rw [hl, hr] at h3
  exact absurd h3 (by decide)

/-- C3 witness: the reports at a concrete path and error message. -/
theorem C3_load_error_reporting_witness :
    load_model "random_forest_model.pkl" .missing =
      (none, [.error (notFoundMsg "random_forest_model.pkl")]) ∧
    notFoundMsg "random_forest_model.pkl" ≠ corruptMsg "invalid load key" :=
  ⟨C3_load_error_reporting.1 "random_forest_model.pkl",
   C3_load_error_reporting.2.2.1 "random_forest_model.pkl" "invalid load key"⟩

theorem cachedLoadModel_cold (cache : List (String × Option Model)) (filename : String)
    (fs : FileOutcome) (h : cache.lookup filename = none) :
    cachedLoadModel cache filename fs =
      ((load_model filename fs).1, (load_model filename fs).2,
       (filename, (load_model filename fs).1) :: cache) := by
  simp [cachedLoadModel, h]

/-- C4: no exception propagates uncaught to the process boundary: every run
returns normally (in particular the construction of the single-row input
before the predict call never raises), and on a fresh load each fault path
(missing file, corrupt artifact, predict exception) renders an error
message. -/
theorem C4_every_fault_rendered (cache : List (String × Option Model)) (filename : String)
    (fs : FileOutcome) (w : WidgetState) (clicked : Bool) :
    (∃ out, runScript cache filename fs w clicked = .ok out) ∧
    (cache.lookup filename = none →
      (fs = .missing →
        ∃ out, runScript cache filename fs w clicked = .ok out ∧
          UIMsg.error (notFoundMsg filename) ∈ out.1) ∧
      (∀ e, fs = .corrupt e →
        ∃ out, runScript cache filename fs w clicked = .ok out ∧
          UIMsg.error (corruptMsg e) ∈ out.1) ∧
      (∀ m e, fs = .ok m → clicked = true → m (modelInputRow w) = .error e →
        ∃ out, runScript cache filename fs w clicked = .ok out ∧
          UIMsg.error (predictErrorMsg e) ∈ out.1)) := by
  refine ⟨⟨_, runScript_eq cache filename fs w clicked⟩, fun hcold => ⟨?_, ?_, ?_⟩⟩
  · rintro rfl
    refine ⟨_, runScript_eq cache filename .missing w clicked, ?_⟩
    rw [cachedLoadModel_cold cache filename .missing hcold]
    simp [load_model]
  · rintro e rfl
    refine ⟨_, runScript_eq cache filename (.corrupt e) w clicked, ?_⟩
    rw [cachedLoadModel_cold cache filename (.corrupt e) hcold]
    simp [load_model]
  · rintro m e rfl rfl hm
    refine ⟨_, runScript_eq cache filename (.ok m) w true, ?_⟩
    rw [cachedLoadModel_cold cache filename (.ok m) hcold]
    simp [load_model, bodyOut, predictBlock, hm, headMsgs, widgetMsgs]

/-- C4 witness: a fresh run against a missing artifact file renders the
not-found error and returns normally. -/
theorem C4_every_fault_rendered_witness :
    ∃ out, runScript [] MODEL_FILENAME .missing
        ⟨1, 0, 0, 0, 1, 12, 0, 0, 0, 0, 0, 0, 0, 0, 0⟩ true = .ok out ∧
      UIMsg.error (notFoundMsg MODEL_FILENAME) ∈ out.1 :=
  ((C4_every_fault_rendered [] MODEL_FILENAME .missing
    ⟨1, 0, 0, 0, 1, 12, 0, 0, 0, 0, 0, 0, 0, 0, 0⟩ true).2 rfl).1 rfl

theorem digitChar_isDigit : ∀ d : Nat, d < 10 → (digitChar d).isDigit = true := by decide

theorem natDigitsAux_props :
    ∀ fuel n, 0 < fuel → n < 10 ^ fuel →
      natDigitsAux fuel n ≠ [] ∧ ∀ c ∈ natDigitsAux fuel n, c.isDigit = true := by
  intro fuel
  induction fuel with
  | zero => intro n h; omega
  | succ fuel ih =>
    intro n _ hn
    rw [natDigitsAux]
    by_cases h10 : n < 10
    · rw [if_pos h10]
      exact ⟨by simp, by simp [digitChar_isDigit n h10]⟩
    · have hfuel : 0 < fuel := by
        rcases Nat.eq_zero_or_pos fuel with rfl | h
        · simp at hn; omega
        · exact h
      have hdiv : n / 10 < 10 ^ fuel := by
        rw [Nat.div_lt_iff_lt_mul (by norm_num)]
        calc n < 10 ^ (fuel + 1) := hn
          _ = 10 ^ fuel * 10 := by ring
      obtain ⟨hne, hdig⟩ := ih (n / 10) hfuel hdiv
      rw [if_neg h10]
      refine ⟨by simp, fun c hc => ?_⟩
      rcases List.mem_append.mp hc with hc | hc
      · exact hdig c hc
      · rw [List.mem_singleton.mp hc]
        exact digitChar_isDigit _ (Nat.mod_lt _ (by norm_num))

theorem natDigits_props (n : Nat) :
    natDigits n ≠ [] ∧ ∀ c ∈ natDigits n, c.isDigit = true :=
  natDigitsAux_props (n + 1) n (Nat.succ_pos n)
    (calc n < 10 ^ n := Nat.lt_pow_self (by norm_num) n
      _ ≤ 10 ^ (n + 1) := Nat.pow_le_pow_right (by norm_num) (Nat.le_succ n))

theorem chunk3_ne_nil : ∀ l : List Char, l ≠ [] → chunk3 l ≠ []
  | [], hl => absurd rfl hl
  | [_], _ => by simp [chunk3]
  | [_, _], _ => by simp [chunk3]
  | _ :: _ :: _ :: _, _ => by simp [chunk3]

theorem chunk3_mem_length (l : List Char) :
    ∀ g ∈ chunk3 l, 1 ≤ g.length ∧ g.length ≤ 3 := by
  induction l using chunk3.induct with
  | case1 => simp [chunk3]
  | case2 a => simp [chunk3]
  | case3 a b => simp [chunk3]
  | case4 a b c rest ih =>
    intro g hg
    rw [chunk3] at hg
    rcases List.mem_cons.mp hg with rfl | hg
    · simp
    · exact ih g hg

theorem chunk3_mem_mem (l : List Char) :
    ∀ g ∈ chunk3 l, ∀ c ∈ g, c ∈ l := by
  induction l using chunk3.induct with
  | case1 => simp [chunk3]
  | case2 a => simp [chunk3]
  | case3 a b => simp [chunk3]
  | case4 a b c rest ih =>
    intro g hg x hx
    rw [chunk3] at hg
    rcases List.mem_cons.mp hg with rfl | hg
    · simp only [List.mem_cons] at hx ⊢
      tauto
    · have := ih g hg x hx
      simp [this]

theorem chunk3_dropLast_length (l : List Char) :
    ∀ g ∈ (chunk3 l).dropLast, g.length = 3 := by
  induction l using chunk3.induct with
  | case1 => simp [chunk3]
  | case2 a => simp [chunk3]
  | case3 a b => simp [chunk3]
  | case4 a b c rest ih =>
    intro g hg
    rw [chunk3] at hg
    cases hrest : chunk3 rest with
    | nil => rw [hrest] at hg; simp at hg
    | cons y ys =>
      rw [hrest, List.dropLast_cons₂] at hg
      rcases List.mem_cons.mp hg with rfl | hg
      · simp
      · exact ih g (by rw [hrest]; exact hg)

theorem groupThousands_good (n : Nat) :
    ∃ gs : List (List Char), gs ≠ [] ∧
      (∀ g ∈ gs, ∀ c ∈ g, c.isDigit = true) ∧
      (∀ g ∈ gs.tail, g.length = 3) ∧
      1 ≤ gs.headI.length ∧ gs.headI.length ≤ 3 ∧
      groupThousands (natDigits n) =
        String.intercalate "," (gs.map List.asString) := by
  obtain ⟨hne, hdig⟩ := natDigits_props n
  set ds := natDigits n with hds
  have hrev : ds.reverse ≠ [] := by simp [hne]
  have hchunk := chunk3_ne_nil ds.reverse hrev
  refine ⟨((chunk3 ds.reverse).map List.reverse).reverse, by simp [hchunk], ?_, ?_, ?_, ?_, rfl⟩
  · intro g hg c hc
    rw [List.mem_reverse] at hg
    obtain ⟨g0, hg0, rfl⟩ := List.mem_map.mp hg
    rw [List.mem_reverse] at hc
    have := chunk3_mem_mem ds.reverse g0 hg0 c hc
    exact hdig c (List.mem_reverse.mp this)
  · intro g hg
    rw [List.tail_reverse_eq_reverse_dropLast, List.mem_reverse, ← List.map_dropLast] at hg
    obtain ⟨g0, hg0, rfl⟩ := List.mem_map.mp hg
    rw [List.length_reverse]
    exact chunk3_dropLast_length ds.reverse g0 hg0
  all_goals {
    obtain ⟨g0, gs0, hcons⟩ :=
      List.exists_cons_of_ne_nil
        (show ((chunk3 ds.reverse).map List.reverse).reverse ≠ [] by simp [hchunk])
    rw [hcons]
    have hmem : g0 ∈ ((chunk3 ds.reverse).map List.reverse).reverse := by
      rw [hcons]; exact List.mem_cons_self g0 gs0
    rw [List.mem_reverse] at hmem
    obtain ⟨g1, hg1, hrfl⟩ := List.mem_map.mp hmem
    have hlen := chunk3_mem_length ds.reverse g1 hg1
    simp only [List.headI]
    rw [← hrfl, List.length_reverse]
    first
      | exact hlen.1
      | exact hlen.2
  }

theorem twoDigitStr_shape :
    ∀ m : Nat, m < 100 →
      (twoDigitStr m).data.length = 2 ∧ ∀ c ∈ (twoDigitStr m).data, c.isDigit = true := by
  decide

/-- A string of the shape Python's `,.2f` produces: an optional minus sign,
integer digits grouped in threes by commas (leading group of one to three
digits, every later group exactly three), a decimal point and exactly two
fraction digits. -/
def wellFormatted (s : String) : Prop :=
  ∃ (sign : String) (gs : List (List Char)) (frac : String),
    (sign = "" ∨ sign = "-") ∧ gs ≠ [] ∧
    (∀ g ∈ gs, ∀ c ∈ g, c.isDigit = true) ∧
    (∀ g ∈ gs.tail, g.length = 3) ∧
    1 ≤ gs.headI.length ∧ gs.headI.length ≤ 3 ∧
    frac.data.length = 2 ∧ (∀ c ∈ frac.data, c.isDigit = true) ∧
    s = sign ++ String.intercalate "," (gs.map List.asString) ++ "." ++ frac

theorem formatComma2f_wellFormatted (q : ℚ) : wellFormatted (formatComma2f q) := by
  obtain ⟨gs, hne, hdig, htail, h1, h3, hgt⟩ :=
    groupThousands_good ((roundHalfEven (q * 100)).natAbs / 100)
  obtain ⟨hlen, hdig2⟩ :=
    twoDigitStr_shape ((roundHalfEven (q * 100)).natAbs % 100) (Nat.mod_lt _ (by norm_num))
  refine ⟨if roundHalfEven (q * 100) < 0 then "-" else "", gs,
    twoDigitStr ((roundHalfEven (q * 100)).natAbs % 100),
    ?_, hne, hdig, htail, h1, h3, hlen, hdig2, ?_⟩
  · by_cases h : roundHalfEven (q * 100) < 0 <;> simp [h]
  · have hdef : formatComma2f q =
        (if roundHalfEven (q * 100) < 0 then "-" else "") ++
          groupThousands (natDigits ((roundHalfEven (q * 100)).natAbs / 100)) ++ "." ++
          twoDigitStr ((roundHalfEven (q * 100)).natAbs % 100) := rfl
    rw [hdef, hgt]

/-- C6: on a successful prediction the displayed value is the first element of
the sequence `model.predict` returned, rendered through the `,.2f` format:
thousands separators and exactly two fraction digits. -/
theorem C6_display_first_element (fs : FileOutcome) (m : Model) (w : WidgetState)
    (p : ℚ) (rest : List ℚ) (hm : m (modelInputRow w) = .ok (p :: rest)) :
    (∃ msgs : List UIMsg,
      runScript [(MODEL_FILENAME, some m)] MODEL_FILENAME fs w true =
        .ok (msgs, [modelInputRow w], [(MODEL_FILENAME, some m)]) ∧
      UIMsg.success (predictSuccessMsg p) ∈ msgs) ∧
    predictSuccessMsg p = "🎉 预测的总播放量为: **" ++ formatComma2f p ++ " 万**" ∧
    wellFormatted (formatComma2f p) := by
  refine ⟨⟨headMsgs ++ widgetMsgs ++ (predictBlock m (modelInputRow w)).1,
    runScript_cached_model m fs w, ?_⟩, rfl, formatComma2f_wellFormatted p⟩
  simp [predictBlock, hm, headMsgs, widgetMsgs]

/-- C6 witness: a model returning the single value `1234567.8` at a concrete
widget state. -/
theorem C6_display_first_element_witness :
    (∃ msgs : List UIMsg,
      runScript [(MODEL_FILENAME, some (fun _ => Except.ok [(12345678 : ℚ) / 10]))]
          MODEL_FILENAME .missing ⟨1, 0, 0, 0, 1, 12, 0, 0, 0, 0, 0, 0, 0, 0, 0⟩ true =
        .ok (msgs, [modelInputRow ⟨1, 0, 0, 0, 1, 12, 0, 0, 0, 0, 0, 0, 0, 0, 0⟩],
             [(MODEL_FILENAME, some (fun _ => Except.ok [(12345678 : ℚ) / 10]))]) ∧
      UIMsg.success (predictSuccessMsg ((12345678 : ℚ) / 10)) ∈ msgs) ∧
    predictSuccessMsg ((12345678 : ℚ) / 10) =
      "🎉 预测的总播放量为: **" ++ formatComma2f ((12345678 : ℚ) / 10) ++ " 万**" ∧
    wellFormatted (formatComma2f ((12345678 : ℚ) / 10)) :=
  C6_display_first_element .missing (fun _ => Except.ok [(12345678 : ℚ) / 10])
    ⟨1, 0, 0, 0, 1, 12, 0, 0, 0, 0, 0, 0, 0, 0, 0⟩ ((12345678 : ℚ) / 10) [] rfl
